import Mathlib

/-! Shallow embedding of `src/1-Slideshow/1-Slideshow.cpp` from the
CYD-PhotoFrame repository, together with theorems settling the claims about
its slideshow engine, storage-lock discipline, catalog rebuild, playback
task, delete batch handling and speed-setting route. -/

namespace PhotoFrame

/-- ASCII lower-casing of one character, as C `tolower` behaves for the
letters `strcasecmp` compares in the C locale. -/
def lowerChar (c : Char) : Char :=
  if 65 ≤ c.toNat ∧ c.toNat ≤ 90 then Char.ofNat (c.toNat + 32) else c

/-- Lower-case an entire name (names are modelled as lists of characters). -/
def lowerStr (s : List Char) : List Char := s.map lowerChar

/-- Case-insensitive equality of two names, i.e. `strcasecmp(a, b) == 0`. -/
def strcaseEq (a b : List Char) : Bool := lowerStr a == lowerStr b

/-- The extension test the sketch performs in `loadImage`, in the upload
rebuild loop and in `setup`:
`strcasecmp(name + strlen(name) - 3, "JPG") == 0`.  It compares only the
last three characters of the name with `JPG`, case-insensitively; no dot is
required.  (For names shorter than three characters the C code reads before
the buffer; the model compares the whole short name, which is never equal to
a three-character string.) -/
def jpgSuffix (name : List Char) : Bool :=
  strcaseEq (name.drop (name.length - 3)) ['J', 'P', 'G']

/-- Events on the shared SPI bus and its mutex `xSpiMutex`.  `acquire` is
`xSemaphoreTake(xSpiMutex, portMAX_DELAY)` and `release` is
`xSemaphoreGive(xSpiMutex)`; the remaining constructors record the bus work
done between them. -/
inductive SpiEvent where
  | acquire
  | release
  | jpegOpenEv (ok : Bool)
  | fillScreen
  | decodeImage
  | jpegCloseEv
  | fileOpenEv (ok : Bool)
  | readChunk (n : Nat)
  | fileCloseEv

/-- Net effect of one event on the number of holders of the SPI mutex. -/
def lockDelta : SpiEvent → Int
  | SpiEvent.acquire => 1
  | SpiEvent.release => -1
  | _ => 0

/-- Number of holders of the SPI mutex after a trace (starting from zero). -/
def heldAfter (es : List SpiEvent) : Int :=
  es.foldl (fun h e => h + lockDelta e) 0

/-- Whether an event is a `release` of the SPI mutex. -/
def isRelease : SpiEvent → Bool
  | SpiEvent.release => true
  | _ => false

/-- Number of `release` events in a trace. -/
def countReleases (es : List SpiEvent) : Nat :=
  (es.filter isRelease).length

/-- SPI-bus trace of `decodeJpeg(name)`: return immediately when the
slideshow is not active; otherwise take the mutex, and either fail to open
the decoder and give the mutex back, or clear the screen, decode, close the
decoder and give the mutex back. -/
def decodeJpegTrace (act : Bool) (openOk : Bool) : List SpiEvent :=
  if act = false then []
  else if openOk = false then
    [SpiEvent.acquire, SpiEvent.jpegOpenEv false, SpiEvent.release]
  else
    [SpiEvent.acquire, SpiEvent.jpegOpenEv true, SpiEvent.fillScreen,
     SpiEvent.decodeImage, SpiEvent.jpegCloseEv, SpiEvent.release]

/-- The chunked-response callback of the `/current_image` route, iterated.
`calls` is how many times the web framework still invokes the callback (a
client abort means it simply stops calling), `remaining` is how many bytes
of the file are left, `maxLen` the buffer size offered per call.  Each call
performs `bytesRead = file->read(buffer, maxLen)`; only when that read
returns `0` does the callback close the file and give the mutex back. -/
def chunkStream : Nat → Nat → Nat → List SpiEvent
  | 0, _, _ => []
  | calls + 1, remaining, maxLen =>
    if min maxLen remaining = 0 then [SpiEvent.fileCloseEv, SpiEvent.release]
    else SpiEvent.readChunk (min maxLen remaining) ::
      chunkStream calls (remaining - min maxLen remaining) maxLen

/-- SPI-bus trace of the `/current_image` handler: a 404 without touching
the bus when no image name is set; otherwise take the mutex, open the file
(on failure give the mutex back and 404), and stream chunks through the
callback until the zero-byte read — or until the client aborts and the
framework stops invoking the callback. -/
def currentImageTrace (imageName : List Char) (openOk : Bool)
    (fileSize maxLen calls : Nat) : List SpiEvent :=
  if imageName = [] then []
  else if openOk = false then
    [SpiEvent.acquire, SpiEvent.fileOpenEv false, SpiEvent.release]
  else
    SpiEvent.acquire :: SpiEvent.fileOpenEv true :: chunkStream calls fileSize maxLen

/-- One directory entry as the `SdBaseFile` enumeration presents it. -/
structure Entry where
  name : List Char
  isDir : Bool

/-- The predicate `loadImage` uses to treat an entry as a slideshow image:
`!entry.isDirectory()` and the `JPG` suffix test. -/
def eligibleE (e : Entry) : Bool := !e.isDir && jpgSuffix e.name

/-- Names of the renderer-eligible entries, in enumeration order. -/
def eligibleNames (ents : List Entry) : List (List Char) :=
  (ents.filter eligibleE).map Entry.name

/-- The pieces of global state `loadImage` writes: `currentImageName` and
the number of `ws.textAll("update")` broadcasts sent so far. -/
structure RenderState where
  currentImageName : List Char
  updatesSent : Nat

/-- The enumeration loop inside `loadImage`: walk the directory, skip
directories and non-`JPG` names, count eligible entries, and at the entry
whose ordinal equals the target set `currentImageName`, run `decodeJpeg`
and send one WebSocket `update` — all of that regardless of whether the
decode succeeds (`decodeJpeg` returns no status). -/
def loadImageGo (act : Bool) (target : Nat) (dek : Bool) (s : RenderState) :
    List Entry → Nat → RenderState × List SpiEvent
  | [], _ => (s, [])
  | e :: rest, index =>
    if e.isDir then loadImageGo act target dek s rest index
    else if jpgSuffix e.name then
      if index = target then
        (⟨e.name, s.updatesSent + 1⟩, decodeJpegTrace act dek)
      else loadImageGo act target dek s rest (index + 1)
    else loadImageGo act target dek s rest index

/-- `loadImage(targetIndex)`: return untouched when the slideshow is not
active; reset the target to `0` when `targetIndex >= fileCount`; then run
the enumeration loop.  `dek` is whether `jpeg.open` succeeds inside
`decodeJpeg`.  Returns the new render state plus the SPI trace of the
decode. -/
def loadImage (act : Bool) (fileCount target : Nat) (dek : Bool)
    (ents : List Entry) (s : RenderState) : RenderState × List SpiEvent :=
  if act then loadImageGo act (if fileCount ≤ target then 0 else target) dek s ents 0
  else (s, [])

/-- The rebuild loop run after an upload (`handleFileUpload`) and at
startup: count every directory entry whose name passes the `JPG` suffix
test.  Unlike `loadImage`, this loop has no `isDirectory` check. -/
def rebuildFileCount : List Entry → Nat
  | [] => 0
  | e :: rest => (if jpgSuffix e.name then 1 else 0) + rebuildFileCount rest

/-- The storage-bus and slideshow flags `playWAV` and `playWAVTask`
manipulate: whether the SdFat (catalog-mode) volume is mounted, whether the
standard SD (audio-mode) library is initialised, the `slideshowActive`
flag, and whether the SPI mutex is currently held. -/
structure BusState where
  sdFatMounted : Bool
  stdSDMounted : Bool
  slideshowActive : Bool
  spiHeld : Bool

/-- `playWAV()`: take the mutex, unmount SdFat; if `SD.begin` fails give
the mutex back and return; otherwise give the mutex back, create the WAV
source; if `wav->begin` fails clean up and return; otherwise stream until
exhausted or a decode failure stops the generator, then take the mutex
again, end the standard SD library, remount SdFat via
`checkAndMountSDCard` (which can itself fail), and give the mutex back.
`stdBeginOk`, `wavBeginOk` and `remountOk` are the outcomes of the three
fallible calls. -/
def playWAV (stdBeginOk wavBeginOk remountOk : Bool) (s : BusState) : BusState :=
  let s1 : BusState := { s with spiHeld := true, sdFatMounted := false }
  if stdBeginOk = false then { s1 with spiHeld := false }
  else
    let s2 : BusState := { s1 with stdSDMounted := true, spiHeld := false }
    if wavBeginOk = false then s2
    else
      let s3 : BusState := { s2 with spiHeld := true, stdSDMounted := false }
      if remountOk = false then { s3 with spiHeld := false }
      else { s3 with sdFatMounted := true, spiHeld := false }

/-- `playWAVTask`: run `playWAV`, then `restartSlideshow` (which sets
`slideshowActive` back to true), then delete the task. -/
def playWAVTask (stdBeginOk wavBeginOk remountOk : Bool) (s : BusState) : BusState :=
  let s1 := playWAV stdBeginOk wavBeginOk remountOk s
  { s1 with slideshowActive := true }

/-- The slideshow globals the main loop and `restartSlideshow` read and
write: `slideshowActive`, `currentIndex`, the advance-timer baseline
`timer` (a `uint32_t` from `millis()`), the ISR flag `buttonPressed` and
the render state. -/
structure SlideshowState where
  slideshowActive : Bool
  currentIndex : Nat
  timer : Nat
  buttonPressed : Bool
  render : RenderState

/-- `restartSlideshow()`: set `slideshowActive = true` and re-render
`currentIndex` via `loadImage`.  Nothing else — in particular `timer` is
not touched. -/
def restartSlideshow (fileCount : Nat) (dek : Bool) (ents : List Entry)
    (s : SlideshowState) : SlideshowState :=
  { s with slideshowActive := true,
           render := (loadImage true fileCount s.currentIndex dek ents s.render).fst }

/-- Reduce to the range of `uint32_t`. -/
def u32n (n : Nat) : Nat := n % 4294967296

/-- The value of the C expression `X * 1000` once the usual arithmetic
conversions turn it into a `uint32_t` for the comparison against
`millis() - timer`. -/
def u32i (i : Int) : Nat := (i % 4294967296).toNat

/-- The loop's trigger test `millis() - timer > X * 1000`, with the
`uint32_t` wraparound subtraction and the signed-to-unsigned conversion of
`X * 1000` made explicit. -/
def elapsedGT (now timer : Nat) (X : Int) : Bool :=
  decide (u32i (X * 1000) < u32n (now + 4294967296 - u32n timer))

/-- One iteration of `loop()` restricted to the slideshow block: when
`fileCount > 0` and either the interval has elapsed or the button ISR
fired, advance `currentIndex` to `(currentIndex + 1) % fileCount`, render
it with `loadImage`, reset the timer baseline to `millis()` and clear the
button flag; otherwise leave the state alone. -/
def loopStep (fileCount : Nat) (dek : Bool) (ents : List Entry) (now : Nat)
    (X : Int) (s : SlideshowState) : SlideshowState :=
  if 0 < fileCount then
    if elapsedGT now s.timer X || s.buttonPressed then
      { slideshowActive := s.slideshowActive,
        currentIndex := (s.currentIndex + 1) % fileCount,
        timer := u32n now,
        buttonPressed := false,
        render := (loadImage s.slideshowActive fileCount
          ((s.currentIndex + 1) % fileCount) dek ents s.render).fst }
    else s
  else s

/-- The button interrupt `buttonInt()`: latch `buttonPressed`. -/
def pressButton (s : SlideshowState) : SlideshowState :=
  { s with buttonPressed := true }

/-- Drive the loop through a list of tick times, with the button pressed
before each tick, so that every tick triggers one advance. -/
def runButtonTicks (fileCount : Nat) (dek : Bool) (ents : List Entry)
    (X : Int) : List Nat → SlideshowState → SlideshowState
  | [], s => s
  | t :: ts, s =>
    runButtonTicks fileCount dek ents X ts
      (loopStep fileCount dek ents t X (pressButton s))

/-- The SD filesystem as the delete handler sees it: the stored paths,
each with a flag saying whether `sd.remove` on it would succeed. -/
structure SdFs where
  files : List (List Char × Bool)

/-- `sd.exists(path)`. -/
def sdExists (fs : SdFs) (n : List Char) : Bool :=
  fs.files.any (fun p => p.1 == n)

/-- `sd.remove(path)`: succeed and drop the entry when its removal flag is
set, otherwise report failure and leave the filesystem alone. -/
def sdRemove (fs : SdFs) (n : List Char) : Bool × SdFs :=
  match fs.files.find? (fun p => p.1 == n) with
  | none => (false, fs)
  | some pr =>
    if pr.2 then (true, ⟨fs.files.eraseP (fun p => p.1 == n)⟩)
    else (false, fs)

/-- The handler prepends a slash to each submitted value before testing it. -/
def slash (n : List Char) : List Char := '/' :: n

/-- The `/delete_files` loop: for each submitted name, check existence,
attempt removal if present, and fold any failure (missing file or failed
remove) into the single `deletionSuccess` flag; never stop early. -/
def deleteFilesGo : List (List Char) → SdFs → Bool → Bool × SdFs
  | [], fs, ok => (ok, fs)
  | n :: rest, fs, ok =>
    if sdExists fs (slash n) then
      deleteFilesGo rest (sdRemove fs (slash n)).2 (ok && (sdRemove fs (slash n)).1)
    else
      deleteFilesGo rest fs (ok && false)

/-- The whole `/delete_files` handler: `deletionSuccess` starts true. -/
def deleteFiles (batch : List (List Char)) (fs : SdFs) : Bool × SdFs :=
  deleteFilesGo batch fs true

/-- Per-item outcomes of the same batch, following the spec's wording of a
per-item aggregated result: one boolean per submitted name, success
meaning the name existed and its removal succeeded. -/
def deleteOutcomesSpec : List (List Char) → SdFs → List Bool × SdFs
  | [], fs => ([], fs)
  | n :: rest, fs =>
    if sdExists fs (slash n) then
      ((sdRemove fs (slash n)).1 ::
        (deleteOutcomesSpec rest (sdRemove fs (slash n)).2).1,
       (deleteOutcomesSpec rest (sdRemove fs (slash n)).2).2)
    else
      (false :: (deleteOutcomesSpec rest fs).1, (deleteOutcomesSpec rest fs).2)

/-- Accumulate decimal digits, as `atol` does after the sign. -/
def digitsVal : List Char → Nat → Nat
  | [], acc => acc
  | c :: rest, acc =>
    if 48 ≤ c.toNat ∧ c.toNat ≤ 57 then digitsVal rest (acc * 10 + (c.toNat - 48))
    else acc

/-- Arduino `String::toInt`, which is C `atol`: skip leading whitespace,
read an optional sign and then decimal digits, stopping at the first
non-digit; yield `0` when no digits are present.  (Modelled from the
documented library semantics; the library source is outside this
repository.) -/
def atol (s : List Char) : Int :=
  match s.dropWhile (fun c => c == ' ' || c == '\t' || c == '\n' || c == '\r') with
  | '-' :: rest => - (digitsVal rest 0 : Int)
  | '+' :: rest => (digitsVal rest 0 : Int)
  | other => (digitsVal other 0 : Int)

/-- The `/set-speed` POST handler: when a `speed` parameter is present,
store `speedValue.toInt()` into the interval `X` with no validation; in
every case answer with the 200 success page. -/
def setSpeedHandler (speedParam : Option (List Char)) (X : Int) : Int × Nat :=
  match speedParam with
  | some v => (atol v, 200)
  | none => (X, 200)

/-- Prepending an entry the renderer skips leaves the eligible names alone. -/
theorem eligibleNames_cons_skip (e : Entry) (rest : List Entry)
    (he : eligibleE e = false) :
    eligibleNames (e :: rest) = eligibleNames rest := by
  simp [eligibleNames, List.filter_cons, he]

/-- Prepending an eligible entry prepends its name. -/
theorem eligibleNames_cons_keep (e : Entry) (rest : List Entry)
    (he : eligibleE e = true) :
    eligibleNames (e :: rest) = e.name :: eligibleNames rest := by
  simp [eligibleNames, List.filter_cons, he]

/-- The enumeration loop of `loadImage` reaches exactly the `(t - i)`-th
eligible entry when it starts counting at `i` and that ordinal exists: it
records that entry's name, sends one update, and produces the decode
trace — independently of the decode outcome `dek`. -/
theorem loadImageGo_eligible (act dek : Bool) (s : RenderState) :
    ∀ (ents : List Entry) (i t : Nat), i ≤ t →
      t - i < (eligibleNames ents).length →
      loadImageGo act t dek s ents i
        = (⟨(eligibleNames ents).getD (t - i) [], s.updatesSent + 1⟩,
           decodeJpegTrace act dek) := by
  intro ents
  induction ents with
  | nil =>
    intro i t _ h
    simp [eligibleNames] at h
  | cons e rest ih =>
    intro i t hle h
    cases hd : e.isDir with
    | true =>
      have he : eligibleE e = false := by simp [eligibleE, hd]
      rw [eligibleNames_cons_skip e rest he] at h ⊢
      rw [show loadImageGo act t dek s (e :: rest) i
            = loadImageGo act t dek s rest i from by simp [loadImageGo, hd]]
      exact ih i t hle h
    | false =>
      cases hj : jpgSuffix e.name with
      | false =>
        have he : eligibleE e = false := by simp [eligibleE, hd, hj]
        rw [eligibleNames_cons_skip e rest he] at h ⊢
        rw [show loadImageGo act t dek s (e :: rest) i
              = loadImageGo act t dek s rest i from by simp [loadImageGo, hd, hj]]
        exact ih i t hle h
      | true =>
        have he : eligibleE e = true := by simp [eligibleE, hd, hj]
        rw [eligibleNames_cons_keep e rest he] at h ⊢
        by_cases hit : i = t
        · subst hit
          simp [loadImageGo, hd, hj, Nat.sub_self]
        · have hstep : loadImageGo act t dek s (e :: rest) i
              = loadImageGo act t dek s rest (i + 1) := by
            simp [loadImageGo, hd, hj, hit]
          obtain ⟨k, hk⟩ : ∃ k, t - i = k + 1 := ⟨t - i - 1, by omega⟩
          have h2 : t - (i + 1) < (eligibleNames rest).length := by
            rw [List.length_cons] at h
            omega
          rw [hstep, ih (i + 1) t (by omega) h2, hk, List.getD_cons_succ]
          have hkk : t - (i + 1) = k := by omega
          rw [hkk]

/-- `loadImage` with an in-range target renders exactly that ordinal. -/
theorem loadImage_in_range (ents : List Entry) (fc t : Nat) (dek : Bool)
    (s : RenderState) (hfc : fc = (eligibleNames ents).length) (ht : t < fc) :
    loadImage true fc t dek ents s
      = (⟨(eligibleNames ents).getD t [], s.updatesSent + 1⟩,
         decodeJpegTrace true dek) := by
  have h := loadImageGo_eligible true dek s ents 0 t (Nat.zero_le t) (by omega)
  rw [Nat.sub_zero] at h
  have hnot : ¬ fc ≤ t := by omega
  simp [loadImage, hnot, h]

/-- `loadImage` with an out-of-range target resets it to ordinal `0`. -/
theorem loadImage_clamped (ents : List Entry) (fc t : Nat) (dek : Bool)
    (s : RenderState) (hfc : fc = (eligibleNames ents).length)
    (hpos : 0 < fc) (hge : fc ≤ t) :
    loadImage true fc t dek ents s
      = (⟨(eligibleNames ents).getD 0 [], s.updatesSent + 1⟩,
         decodeJpegTrace true dek) := by
  have h := loadImageGo_eligible true dek s ents 0 0 le_rfl (by omega)
  rw [Nat.sub_zero] at h
  simp [loadImage, hge, h]

/-- Driving the loop with `k` button-triggered ticks moves the index from
`i` to `(i + k) % fileCount`. -/
theorem runButtonTicks_count (fc : Nat) (dek : Bool) (ents : List Entry)
    (X : Int) :
    ∀ (ticks : List Nat) (s : SlideshowState), 0 < fc → s.currentIndex < fc →
      (runButtonTicks fc dek ents X ticks s).currentIndex
        = (s.currentIndex + ticks.length) % fc := by
  intro ticks
  induction ticks with
  | nil =>
    intro s hpos hidx
    simp [runButtonTicks, Nat.mod_eq_of_lt hidx]
  | cons t ts ih =>
    intro s hpos hidx
    have hstep : (loopStep fc dek ents t X (pressButton s)).currentIndex
        = (s.currentIndex + 1) % fc := by
      simp [loopStep, pressButton, hpos]
    have hlt : (loopStep fc dek ents t X (pressButton s)).currentIndex < fc := by
      rw [hstep]
      exact Nat.mod_lt _ hpos
    rw [show runButtonTicks fc dek ents X (t :: ts) s
          = runButtonTicks fc dek ents X ts
              (loopStep fc dek ents t X (pressButton s)) from rfl]
    rw [ih _ hpos hlt, hstep, Nat.mod_add_mod]
    congr 1
    simp [List.length_cons]
    omega

/-- The delete loop is the fold of the per-item outcomes: its final
`deletionSuccess` flag is the accumulator conjoined with all outcomes, and
it walks exactly the same filesystem states. -/
theorem deleteFilesGo_acc :
    ∀ (batch : List (List Char)) (fs : SdFs) (ok : Bool),
      deleteFilesGo batch fs ok
        = (ok && (deleteOutcomesSpec batch fs).1.all id,
           (deleteOutcomesSpec batch fs).2) := by
  intro batch
  induction batch with
  | nil =>
    intro fs ok
    simp [deleteFilesGo, deleteOutcomesSpec]
  | cons n rest ih =>
    intro fs ok
    cases hx : sdExists fs (slash n) with
    | false => simp [deleteFilesGo, deleteOutcomesSpec, hx, ih]
    | true => simp [deleteFilesGo, deleteOutcomesSpec, hx, ih, Bool.and_assoc]

/-- Every submitted name receives exactly one per-item outcome: the loop
never aborts early. -/
theorem deleteOutcomesSpec_length :
    ∀ (batch : List (List Char)) (fs : SdFs),
      (deleteOutcomesSpec batch fs).1.length = batch.length := by
  intro batch
  induction batch with
  | nil =>
    intro fs
    simp [deleteOutcomesSpec]
  | cons n rest ih =>
    intro fs
    cases hx : sdExists fs (slash n) with
    | false => simp [deleteOutcomesSpec, hx, ih]
    | true => simp [deleteOutcomesSpec, hx, ih]

/-- Whether a name ends in `.jpg` ignoring case — the claim's wording of
the eligibility test, for comparison with the code's `jpgSuffix` (which
never looks for the dot). -/
def endsWithDotJpgCI (name : List Char) : Bool :=
  lowerStr (name.drop (name.length - 4)) == ['.', 'j', 'p', 'g']

/-- Eligibility as claim C7 words it: a non-directory entry whose name ends
in `.jpg` ignoring case. -/
def claimEligible (e : Entry) : Bool := !e.isDir && endsWithDotJpgCI e.name

/-- Concrete sample name `A.JPG`. -/
def cNameA : List Char := ['A', '.', 'J', 'P', 'G']

/-- Concrete sample name `B.jpg` (lower-case suffix). -/
def cNameB : List Char := ['B', '.', 'j', 'p', 'g']

/-- A one-image catalog. -/
def cEnts1 : List Entry := [⟨cNameA, false⟩]

/-- A two-image catalog. -/
def cEnts2 : List Entry := [⟨cNameA, false⟩, ⟨cNameB, false⟩]

/-- A listing holding one directory whose name carries the `JPG` suffix. -/
def cEntsDir : List Entry := [⟨cNameA, true⟩]

/-- A render state remembering an earlier image. -/
def cOld : RenderState := ⟨['O', 'L', 'D'], 0⟩

/-- A blank render state. -/
def cFresh : RenderState := ⟨[], 0⟩

/-- A suspended slideshow at index 1 with the timer baseline at 0. -/
def cS5 : SlideshowState := ⟨false, 1, 0, false, cFresh⟩

/-- A suspended slideshow at index 0. -/
def cS5w : SlideshowState := ⟨false, 0, 7, false, cFresh⟩

/-- A running slideshow at index 1 with the button latched. -/
def cS6 : SlideshowState := ⟨true, 1, 0, true, cFresh⟩

/-- A filesystem holding only `/b.jpg`, removable. -/
def cFsD : SdFs := ⟨[(slash ['b', '.', 'j', 'p', 'g'], true)]⟩

/-- The delete batch `a.jpg` (absent) then `b.jpg` (present). -/
def cBatch : List (List Char) :=
  [['a', '.', 'j', 'p', 'g'], ['b', '.', 'j', 'p', 'g']]

/-- Claim C1: `decodeJpeg` releases the SPI mutex both when `jpeg.open`
fails and after a successful decode, and the `/current_image` handler
releases it exactly once when the stream drains to the zero-byte chunk and
when the file fails to open — but NOT when the client aborts mid-stream:
serving a 2-byte file in 1-byte chunks with the callback invoked only once
(the client disconnected) ends with the mutex still held and no release
event, because the release lives only inside the zero-byte-read branch of
the chunk callback and nothing runs it on disconnect. -/
theorem spiMutex_release_paths_current_image :
    heldAfter (decodeJpegTrace true false) = 0 ∧
    heldAfter (decodeJpegTrace true true) = 0 ∧
    heldAfter (currentImageTrace cNameA false 2 1 9) = 0 ∧
    countReleases (currentImageTrace cNameA false 2 1 9) = 1 ∧
    heldAfter (currentImageTrace cNameA true 2 1 9) = 0 ∧
    countReleases (currentImageTrace cNameA true 2 1 9) = 1 ∧
    heldAfter (currentImageTrace cNameA true 2 1 1) = 1 ∧
    countReleases (currentImageTrace cNameA true 2 1 1) = 0 := by decide

/-- Claim C2: the playback task is supposed to perform its bus-restore
step on every outcome and then resume the slideshow.  The model shows the
failing path: when `wav->begin` fails, `playWAV` returns before the
`SD.end` / `checkAndMountSDCard` restore, so the task resumes the
slideshow with the standard SD library still mounted and SdFat unmounted
(first conjunct); the `SD.begin`-failure path likewise leaves SdFat
unmounted (second conjunct); only the streamed path restores catalog mode
(third conjunct).  Start state: catalog mounted, slideshow suspended. -/
theorem playWAVTask_wavBeginFail_skips_restore :
    playWAVTask true false true ⟨true, false, false, false⟩
      = ⟨false, true, true, false⟩ ∧
    playWAVTask false true true ⟨true, false, false, false⟩
      = ⟨false, false, true, false⟩ ∧
    playWAVTask true true true ⟨true, false, false, false⟩
      = ⟨true, false, true, false⟩ :=
  ⟨rfl, rfl, rfl⟩

/-- Claim C3 counterexample: rendering the only entry of `cEnts1` with a
failing decode (`jpeg.open` returns false) still replaces
`currentImageName` (previously `OLD`) with `A.JPG` and still sends one
`update` broadcast — the claim says the name is retained and no
notification is sent on decode failure. -/
theorem loadImage_decodeFail_still_updates :
    (loadImage true 1 0 false cEnts1 cOld).fst = ⟨cNameA, 1⟩ ∧
    cOld.currentImageName ≠ cNameA :=
  ⟨rfl, by decide⟩

/-- Claim C3 (amended): whenever the target ordinal exists among the
eligible entries, `loadImage` sets `currentImageName` to that entry's name
and broadcasts exactly one `update`, regardless of whether the decode
succeeds — the name is written and the notification sent before/without
consulting the decode outcome, so a failed decode still changes the name
and still notifies. -/
theorem loadImage_updates_and_notifies_unconditionally (ents : List Entry)
    (fc t : Nat) (dek : Bool) (s : RenderState)
    (hfc : fc = (eligibleNames ents).length) (ht : t < fc) :
    (loadImage true fc t dek ents s).fst
      = ⟨(eligibleNames ents).getD t [], s.updatesSent + 1⟩ ∧
    (loadImage true fc t false ents s).fst
      = (loadImage true fc t true ents s).fst := by
  constructor
  · rw [loadImage_in_range ents fc t dek s hfc ht]
  · rw [loadImage_in_range ents fc t false s hfc ht,
        loadImage_in_range ents fc t true s hfc ht]

/-- Witness for the amended claim C3 at a concrete catalog. -/
theorem loadImage_updates_and_notifies_unconditionally_witness :
    1 = (eligibleNames cEnts1).length ∧ (0 : Nat) < 1 ∧
    ((loadImage true 1 0 false cEnts1 cOld).fst
        = ⟨(eligibleNames cEnts1).getD 0 [], cOld.updatesSent + 1⟩ ∧
     (loadImage true 1 0 false cEnts1 cOld).fst
        = (loadImage true 1 0 true cEnts1 cOld).fst) :=
  ⟨by decide, by decide,
   loadImage_updates_and_notifies_unconditionally cEnts1 1 0 false cOld
     (by decide) (by decide)⟩

/-- Claim C4 counterexample: with a two-image catalog, requesting index 3
renders ordinal 0 (`A.JPG`), not ordinal `3 mod 2 = 1` (`B.jpg`) — the
out-of-range policy is a reset to zero, not a wrap modulo the count. -/
theorem loadImage_out_of_range_not_mod :
    (loadImage true 2 3 true cEnts2 cFresh).fst.currentImageName = cNameA ∧
    (3 : Nat) % 2 = 1 ∧
    (eligibleNames cEnts2).getD (3 % 2) [] = cNameB ∧
    cNameA ≠ cNameB := by decide

/-- Claim C4 (amended): for a catalog with `count > 0`, `loadImage`
resolves an out-of-range index by resetting it to ordinal `0` (not by
wrapping modulo the count); an in-range index renders its own ordinal; in
both cases an entry is rendered and an update broadcast — no error is
reported while the count is positive. -/
theorem loadImage_out_of_range_resets_to_zero (ents : List Entry)
    (fc t : Nat) (dek : Bool) (s : RenderState)
    (hfc : fc = (eligibleNames ents).length) (hpos : 0 < fc) :
    (loadImage true fc t dek ents s).fst
      = ⟨(eligibleNames ents).getD (if fc ≤ t then 0 else t) [],
         s.updatesSent + 1⟩ := by
  by_cases hge : fc ≤ t
  · rw [if_pos hge, loadImage_clamped ents fc t dek s hfc hpos hge]
  · rw [if_neg hge, loadImage_in_range ents fc t dek s hfc (by omega)]

/-- Witness for the amended claim C4 at a concrete out-of-range index. -/
theorem loadImage_out_of_range_resets_to_zero_witness :
    2 = (eligibleNames cEnts2).length ∧ (0 : Nat) < 2 ∧
    (loadImage true 2 5 true cEnts2 cFresh).fst
      = ⟨(eligibleNames cEnts2).getD (if 2 ≤ 5 then 0 else 5) [],
         cFresh.updatesSent + 1⟩ :=
  ⟨by decide, by decide,
   loadImage_out_of_range_resets_to_zero cEnts2 2 5 true cFresh
     (by decide) (by decide)⟩

/-- Claim C5 counterexample: resume from suspension with the pre-suspension
timer baseline 0 and interval 10 s.  `restartSlideshow` leaves the timer at
0, and the very next loop tick at `millis() = 20001` (one millisecond after
resume) already advances the index from 1 to 0 — the advance fired
immediately off the stale baseline instead of a full interval after
resume, so the claim that resume resets the advance timer is false. -/
theorem restartSlideshow_stale_timer_immediate_advance :
    (restartSlideshow 2 true cEnts2 cS5).timer = 0 ∧
    (restartSlideshow 2 true cEnts2 cS5).timer = cS5.timer ∧
    (restartSlideshow 2 true cEnts2 cS5).currentIndex = 1 ∧
    (loopStep 2 true cEnts2 20001 10
        (restartSlideshow 2 true cEnts2 cS5)).currentIndex = 0 := by decide

/-- Claim C5 (amended): `restartSlideshow` re-activates the slideshow and
re-renders the entry at the unchanged `currentIndex`, but it does not reset
the advance timer — the next timer-driven advance is still measured from
the pre-suspension baseline. -/
theorem restartSlideshow_rerenders_without_timer_reset (fc : Nat)
    (dek : Bool) (ents : List Entry) (s : SlideshowState)
    (hfc : fc = (eligibleNames ents).length) (hi : s.currentIndex < fc) :
    (restartSlideshow fc dek ents s).slideshowActive = true ∧
    (restartSlideshow fc dek ents s).timer = s.timer ∧
    (restartSlideshow fc dek ents s).currentIndex = s.currentIndex ∧
    (restartSlideshow fc dek ents s).render.currentImageName
      = (eligibleNames ents).getD s.currentIndex [] := by
  refine ⟨rfl, rfl, rfl, ?_⟩
  simp [restartSlideshow,
        loadImage_in_range ents fc s.currentIndex dek s.render hfc hi]

/-- Witness for the amended claim C5 at a concrete suspended state. -/
theorem restartSlideshow_rerenders_without_timer_reset_witness :
    1 = (eligibleNames cEnts1).length ∧ cS5w.currentIndex < 1 ∧
    ((restartSlideshow 1 true cEnts1 cS5w).slideshowActive = true ∧
     (restartSlideshow 1 true cEnts1 cS5w).timer = cS5w.timer ∧
     (restartSlideshow 1 true cEnts1 cS5w).currentIndex = cS5w.currentIndex ∧
     (restartSlideshow 1 true cEnts1 cS5w).render.currentImageName
       = (eligibleNames cEnts1).getD cS5w.currentIndex []) :=
  ⟨by decide, by decide,
   restartSlideshow_rerenders_without_timer_reset 1 true cEnts1 cS5w
     (by decide) (by decide)⟩

/-- Claim C6: with `fileCount = 0` the loop body is a no-op that leaves the
whole slideshow state unchanged; with `fileCount > 0` a triggered tick sets
`currentIndex` to `(currentIndex + 1) % fileCount` and renders that index
(for an active slideshow and a consistent catalog the rendered name is the
entry at the new ordinal); and `k` repeated button-triggered advances from
a valid index `i` land on `(i + k) % fileCount`, visiting
`i+1, i+2, …` modulo the count deterministically. -/
theorem loop_advance_spec (fc : Nat) (dek : Bool) (ents : List Entry)
    (X : Int) (now : Nat) (s : SlideshowState) (ticks : List Nat) :
    (fc = 0 → loopStep fc dek ents now X s = s) ∧
    ((elapsedGT now s.timer X || s.buttonPressed) = true → 0 < fc →
      (loopStep fc dek ents now X s).currentIndex
          = (s.currentIndex + 1) % fc ∧
      (loopStep fc dek ents now X s).render
          = (loadImage s.slideshowActive fc ((s.currentIndex + 1) % fc) dek
              ents s.render).fst) ∧
    ((elapsedGT now s.timer X || s.buttonPressed) = true → 0 < fc →
      s.slideshowActive = true → fc = (eligibleNames ents).length →
      (loopStep fc dek ents now X s).render.currentImageName
          = (eligibleNames ents).getD ((s.currentIndex + 1) % fc) []) ∧
    (0 < fc → s.currentIndex < fc →
      (runButtonTicks fc dek ents X ticks s).currentIndex
          = (s.currentIndex + ticks.length) % fc) := by
  refine ⟨?_, ?_, ?_, ?_⟩
  · intro h0
    simp [loopStep, h0]
  · intro htrig hpos
    simp [loopStep, htrig, hpos]
  · intro htrig hpos hact hfc
    have hmod : (s.currentIndex + 1) % fc < fc := Nat.mod_lt _ hpos
    simp [loopStep, htrig, hpos, hact,
          loadImage_in_range ents fc ((s.currentIndex + 1) % fc) dek s.render
            hfc hmod]
  · intro hpos hidx
    exact runButtonTicks_count fc dek ents X ticks s hpos hidx

/-- Witness for claim C6 at a concrete running state, covering the empty
catalog no-op, one triggered advance, the rendered name, and three
repeated advances. -/
theorem loop_advance_spec_witness :
    (loopStep 0 true cEnts2 50 10 cS6 = cS6) ∧
    ((elapsedGT 50 cS6.timer 10 || cS6.buttonPressed) = true) ∧
    (loopStep 2 true cEnts2 50 10 cS6).currentIndex
      = (cS6.currentIndex + 1) % 2 ∧
    (loopStep 2 true cEnts2 50 10 cS6).render.currentImageName
      = (eligibleNames cEnts2).getD ((cS6.currentIndex + 1) % 2) [] ∧
    (runButtonTicks 2 true cEnts2 10 [100, 200, 300] cS6).currentIndex
      = (cS6.currentIndex + [100, 200, 300].length) % 2 := by
  have h0 := loop_advance_spec 0 true cEnts2 10 50 cS6 []
  have h2 := loop_advance_spec 2 true cEnts2 10 50 cS6 [100, 200, 300]
  exact ⟨h0.1 rfl, by decide,
         (h2.2.1 (by decide) (by decide)).1,
         h2.2.2.1 (by decide) (by decide) (by decide) (by decide),
         h2.2.2.2 (by decide) (by decide)⟩

/-- Claim C7 counterexample: a listing holding one directory named `A.JPG`
is counted by the rebuild loop (`fileCount = 1`) although the count of
entries matching the claim's description — non-directory files whose name
ends in `.jpg` ignoring case — is 0, as is the count of entries the
renderer treats as eligible; a plain file `XJPG` (no dot) is also counted
and renderer-eligible although it does not end in `.jpg`. -/
theorem rebuildFileCount_counts_directory :
    rebuildFileCount cEntsDir = 1 ∧
    (cEntsDir.filter claimEligible).length = 0 ∧
    (eligibleNames cEntsDir).length = 0 ∧
    rebuildFileCount [⟨['X', 'J', 'P', 'G'], false⟩] = 1 ∧
    claimEligible ⟨['X', 'J', 'P', 'G'], false⟩ = false := by decide

/-- Claim C7 (amended): the rebuild count equals the number of entries
whose last three characters case-insensitively equal `jpg` — directories
included and no dot required.  It therefore equals the renderer-eligible
count plus the number of `jpg`-suffixed directories, and matches the set
the renderer will treat as eligible exactly when no such directory is
present. -/
theorem rebuildFileCount_decomposition (ents : List Entry) :
    rebuildFileCount ents
      = (eligibleNames ents).length
        + (ents.filter (fun e => e.isDir && jpgSuffix e.name)).length := by
  induction ents with
  | nil => simp [rebuildFileCount, eligibleNames]
  | cons e rest ih =>
    cases hd : e.isDir with
    | false =>
      cases hj : jpgSuffix e.name with
      | false =>
        have he : eligibleE e = false := by simp [eligibleE, hd, hj]
        simp [rebuildFileCount, eligibleNames_cons_skip e rest he,
              List.filter_cons, hd, hj, ih]
      | true =>
        have he : eligibleE e = true := by simp [eligibleE, hd, hj]
        simp [rebuildFileCount, eligibleNames_cons_keep e rest he,
              List.filter_cons, hd, hj, ih]
        omega
    | true =>
      cases hj : jpgSuffix e.name with
      | false =>
        have he : eligibleE e = false := by simp [eligibleE, hd]
        simp [rebuildFileCount, eligibleNames_cons_skip e rest he,
              List.filter_cons, hd, hj, ih]
      | true =>
        have he : eligibleE e = false := by simp [eligibleE, hd]
        simp [rebuildFileCount, eligibleNames_cons_skip e rest he,
              List.filter_cons, hd, hj, ih]
        omega

/-- Claim C8: the delete handler processes every submitted name — each
gets its own outcome, a missing name or a failed remove is recorded as a
per-item failure without aborting the rest — the filesystem evolution is
exactly the per-item sequence, and the overall `deletionSuccess` reported
to the requester is true if and only if every item in the batch succeeded.
The last two conjuncts check the spec's scenario: a batch naming an absent
`a.jpg` and a present `b.jpg` yields outcomes `[failure, success]` and
`b.jpg` is really gone afterwards. -/
theorem deleteFiles_per_item_aggregation (batch : List (List Char))
    (fs : SdFs) :
    (deleteFiles batch fs).1 = (deleteOutcomesSpec batch fs).1.all id ∧
    (deleteOutcomesSpec batch fs).1.length = batch.length ∧
    (deleteFiles batch fs).2 = (deleteOutcomesSpec batch fs).2 ∧
    (deleteOutcomesSpec cBatch cFsD).1 = [false, true] ∧
    sdExists (deleteFiles cBatch cFsD).2 (slash ['b', '.', 'j', 'p', 'g'])
      = false := by
  refine ⟨?_, deleteOutcomesSpec_length batch fs, ?_, by decide, by decide⟩
  · rw [deleteFiles, deleteFilesGo_acc batch fs true]
    simp
  · rw [deleteFiles, deleteFilesGo_acc batch fs true]

/-- Claim C9 counterexample: a set-speed request carrying the value `0`
stores interval 0 — the stored interval is not positive afterwards, so the
claimed positivity invariant fails. -/
theorem setSpeed_zero_becomes_interval :
    (setSpeedHandler (some ['0']) 10).1 = 0 ∧
    ¬ 0 < (setSpeedHandler (some ['0']) 10).1 := by decide

/-- Claim C9 (amended): the `/set-speed` handler stores the raw
`toInt`-parse of the `speed` value with no validation, so a zero value
stores 0, a negative value stores a negative interval, and a non-numeric
value parses to 0 — positivity of the stored interval is not enforced by
the operation (only by the HTML form's client-side `min=1`). -/
theorem setSpeed_stores_unvalidated_toInt (X : Int) :
    (∀ v, setSpeedHandler (some v) X = (atol v, 200)) ∧
    (setSpeedHandler (some ['-', '5']) 10).1 = -5 ∧
    (setSpeedHandler (some ['a', 'b', 'c']) 10).1 = 0 ∧
    (setSpeedHandler (some ['0']) 10).1 ≤ 0 :=
  ⟨fun _ => rfl, by decide, by decide, by decide⟩

/-- Claim C10: a set-speed request without a `speed` parameter leaves the
stored interval unchanged and still answers with the 200 success page — a
missing parameter is silently ignored, not an error. -/
theorem setSpeed_missing_param_leaves_interval (X : Int) :
    setSpeedHandler none X = (X, 200) := rfl

end PhotoFrame
